import Mathlib

/-!
Verification of the response-parsing routine `parseJSONResponse` from
`src/AI-Analyzer/src/App.jsx` (the "ResponseInterpreter" of the spec).

The JavaScript routine is:

  const parseJSONResponse = (reply) => {
    try {
      const match = reply.match(/\x7b[\s\S]*\x7d/);
      if (!match) throw new Error("No JSON object found");
      const parsed = JSON.parse(match[0]);
      if (!parsed.overallScore && !parsed.error) {
        throw new Error("Missing overallScore");
      }
      const numericScore = Number(
        String(parsed.overallScore).match(/\d+(\.\d+)?/)?.[0],
      );
      if (Number.isNaN(numericScore)) {
        throw new Error("Invalid score format");
      }
      return { ...parsed, overallScore: numericScore };
    } catch (err) {
      console.error("Parse error:", err);
      return { overallScore: null, error: "Invalid AI response format" };
    }
  };

Modelling decisions, in order of appearance:
- JavaScript values reachable here (JSON values plus `undefined` from a
  missing property) are the inductive `JsValue`.  JavaScript numbers are
  modelled as exact rationals `ℚ`, built with `mkRat` on integer
  arithmetic; every number handled by the routine is produced by
  `JSON.parse` or by `Number` on a `\d+(\.\d+)?` match, and on the decimal
  values these routines exercise the double semantics agrees with ℚ.  The
  model knowingly diverges from IEEE doubles at the extremes: `Number` of a
  digit match whose value reaches 2 ^ 1024 is Infinity in JavaScript and
  slips past the `Number.isNaN` guard (the exact-rational model keeps the
  exact value; `score_overflow_evidence` records this divergence as a code
  bug against the spec's finiteness invariant), `String()` switches to
  exponential form below 1e-6 and at or above 1e21 where the model prints
  plain decimal, and fractions are printed to at most 30 digits.
- `JSON.parse` is embedded as `jsonParse`, a fuel-indexed recursive-descent
  parser of the JSON grammar (objects, arrays, strings with escapes,
  numbers with fraction/exponent, `true`/`false`/`null`), strict about
  trailing input, rejecting unescaped control characters, and giving a
  duplicate key the first position and the last value, as JavaScript does.
  Fuel `2 * length + 4` exceeds the recursion depth on any input; running
  out of fuel yields `none`, i.e. a parse failure.
- The regex `/\x7b[\s\S]*\x7d/` matches from the first brace-open that has a
  later brace-close, greedily to the last brace-close of the string; this is
  `extractBraceSpan`.  The regex `/\d+(\.\d+)?/` finds the first maximal
  digit run, optionally extended by a dot and another digit run;
  this is `firstNumMatch`.  `Number` applied to such a match is
  `parseDecimal` and never yields NaN, so `Number(m?.[0])` is NaN exactly
  when there is no match: the `Number.isNaN` test of the source is the
  `none` branch of `firstNumMatch`.
- Objects are association lists `List (String × JsValue)`; `parsed.f` is
  `getField` (missing field ↦ `JsValue.undefined`); the spread
  `{ ...parsed, overallScore: v }` is `setField` (replace in place, else
  append).  The `try`/`catch` collapses every `throw` to the sentinel
  record, so each failure test maps directly to `invalidResponse`.
-/

/-- JavaScript values reachable in the routine: the JSON values plus
`undefined` (the result of reading an absent property).  Numbers are exact
rationals. -/
inductive JsValue where
  | null
  | undefined
  | bool (b : Bool)
  | num (q : ℚ)
  | str (s : String)
  | arr (elems : List JsValue)
  | obj (fields : List (String × JsValue))

/-- Property read `o.k` on an object given as an association list; an absent
key reads as `undefined`, as in JavaScript. -/
def getField : List (String × JsValue) → String → JsValue
  | [], _ => JsValue.undefined
  | (k1, v) :: rest, k => if k1 = k then v else getField rest k

/-- Setting key `k` to `v`: replace the value at the first occurrence of `k`
keeping its position, else append.  This is both the JavaScript behaviour of
`{ ...parsed, overallScore: v }` and the behaviour of `JSON.parse` on a
duplicate object key (first position, last value). -/
def setField : List (String × JsValue) → String → JsValue → List (String × JsValue)
  | [], k, v => [(k, v)]
  | (k1, v1) :: rest, k, v =>
    if k1 = k then (k, v) :: rest else (k1, v1) :: setField rest k v

/-- JavaScript truthiness of the values in play.  `undefined`, `null`,
`false`, the number `0` and the empty string are falsy; every object and
array is truthy.  (NaN, the remaining falsy value, cannot come out of
`JSON.parse`.) -/
def truthy : JsValue → Bool
  | JsValue.undefined => false
  | JsValue.null => false
  | JsValue.bool b => b
  | JsValue.num q => if q = 0 then false else true
  | JsValue.str s => if s = "" then false else true
  | JsValue.arr _ => true
  | JsValue.obj _ => true

/-- Decimal digits of the fractional part of `r / d` by long division, up to
`k` digits, stopping at remainder `0`.  (JavaScript prints the shortest
round-tripping decimal of a float; on the terminating decimals this routine
handles, that is exactly the long-division expansion.) -/
def fracDigits : Nat → Nat → Nat → List Char
  | 0, _, _ => []
  | _, 0, _ => []
  | k+1, r, d => Char.ofNat (48 + (r * 10) / d) :: fracDigits k ((r * 10) % d) d

/-- `String(x)` for a number: sign, integer part, and fractional digits when
the fractional part is nonzero.  (JavaScript switches to exponential form
below 1e-6 and at or above 1e21, and prints the shortest round-tripping
decimal of the double; this plain-decimal printer agrees with it on the
terminating decimals of modest size the claims exercise.) -/
def qToString (q : ℚ) : String :=
  let n := q.num.natAbs
  let d := q.den
  let fcs := fracDigits 30 (n % d) d
  (if q.num < 0 then "-" else "") ++ Nat.repr (n / d) ++
    (if fcs.isEmpty then "" else "." ++ String.mk fcs)

/-- `String(x)` for any value, with fuel for the recursion into arrays:
`String(undefined) = "undefined"`, `String(null) = "null"`, booleans print
their name, strings are themselves, an array joins its elements with commas
printing `null`/`undefined` elements as empty, and a plain object prints
`"[object Object]"`. -/
def jsToStringFuel : Nat → JsValue → String
  | _, JsValue.undefined => "undefined"
  | _, JsValue.null => "null"
  | _, JsValue.bool true => "true"
  | _, JsValue.bool false => "false"
  | _, JsValue.num q => qToString q
  | _, JsValue.str s => s
  | _, JsValue.obj _ => "[object Object]"
  | 0, JsValue.arr _ => ""
  | fuel+1, JsValue.arr xs =>
    String.intercalate ","
      (xs.map (fun v =>
        match v with
        | JsValue.null => ""
        | JsValue.undefined => ""
        | v => jsToStringFuel fuel v))

/-- Nesting depth of a value, to seed the fuel of the stringifier. -/
def jsValueSize : JsValue → Nat
  | JsValue.arr xs => (xs.attach.map (fun p => jsValueSize p.1)).foldl max 0 + 1
  | _ => 1
decreasing_by
  simp_wf
  have h := List.sizeOf_lt_of_mem p.2
  omega

/-- `String(x)`: the non-array cases directly, and the array case through
the fuelled stringifier, whose fuel `jsValueSize` dominates the nesting
depth, so it never runs out. -/
def jsToString : JsValue → String
  | JsValue.undefined => "undefined"
  | JsValue.null => "null"
  | JsValue.bool true => "true"
  | JsValue.bool false => "false"
  | JsValue.num q => qToString q
  | JsValue.str s => s
  | JsValue.obj _ => "[object Object]"
  | JsValue.arr xs => jsToStringFuel (jsValueSize (JsValue.arr xs)) (JsValue.arr xs)

/-- JSON whitespace. -/
def skipWs (cs : List Char) : List Char :=
  cs.dropWhile (fun c => c = ' ' || c = '\t' || c = '\n' || c = '\r')

/-- Value of a hexadecimal digit. -/
def hexVal : Char → Option Nat
  | c =>
    if '0' ≤ c ∧ c ≤ '9' then some (c.toNat - 48)
    else if 'a' ≤ c ∧ c ≤ 'f' then some (c.toNat - 87)
    else if 'A' ≤ c ∧ c ≤ 'F' then some (c.toNat - 55)
    else none

/-- Body of a JSON string after the opening quote: plain characters, the
escapes of the JSON grammar, and `\uXXXX`; unescaped control characters are
a syntax error.  Returns the string and the input after the closing
quote.  Fuel: at least one character is consumed per step. -/
def parseStringAux : Nat → List Char → List Char → Option (String × List Char)
  | 0, _, _ => none
  | _+1, _, [] => none
  | fuel+1, acc, c :: rest =>
    if c = '"' then some (String.mk acc.reverse, rest)
    else if c = '\\' then
      match rest with
      | [] => none
      | e :: rest1 =>
        match e with
        | '"' => parseStringAux fuel ('"' :: acc) rest1
        | '\\' => parseStringAux fuel ('\\' :: acc) rest1
        | '/' => parseStringAux fuel ('/' :: acc) rest1
        | 'b' => parseStringAux fuel (Char.ofNat 8 :: acc) rest1
        | 'f' => parseStringAux fuel (Char.ofNat 12 :: acc) rest1
        | 'n' => parseStringAux fuel ('\n' :: acc) rest1
        | 'r' => parseStringAux fuel (Char.ofNat 13 :: acc) rest1
        | 't' => parseStringAux fuel ('\t' :: acc) rest1
        | 'u' =>
          match rest1 with
          | h1 :: h2 :: h3 :: h4 :: rest2 =>
            match hexVal h1, hexVal h2, hexVal h3, hexVal h4 with
            | some a, some b, some c1, some d =>
              parseStringAux fuel
                (Char.ofNat (((a * 16 + b) * 16 + c1) * 16 + d) :: acc) rest2
            | _, _, _, _ => none
          | _ => none
        | _ => none
    else if c.toNat < 32 then none
    else parseStringAux fuel (c :: acc) rest

/-- Numeric value of a list of decimal digit characters. -/
def digitsToNat (ds : List Char) : Nat :=
  ds.foldl (fun a c => a * 10 + (c.toNat - 48)) 0

/-- Assemble a JSON number from its parts: sign, integer digits, fraction
digits, exponent sign and exponent digits, as an exact rational. -/
def assembleNumber (neg : Bool) (ip fr : List Char) (expNeg : Bool)
    (ed : List Char) : ℚ :=
  let mantissa : Nat := digitsToNat (ip ++ fr)
  let m : Int := if neg then -(mantissa : Int) else (mantissa : Int)
  let e : Nat := digitsToNat ed
  if expNeg then mkRat m (10 ^ fr.length * 10 ^ e)
  else mkRat (m * (10 : Int) ^ e) (10 ^ fr.length)

/-- The exponent part of a JSON number, after the mantissa: optionally
`e`/`E`, a sign, and at least one digit. -/
def parseExpPart (neg : Bool) (ip fr : List Char) (cs : List Char) :
    Option (ℚ × List Char) :=
  match cs with
  | 'e' :: r1 =>
    match r1 with
    | '+' :: r2 =>
      let ed := r2.takeWhile Char.isDigit
      if ed.isEmpty then none
      else some (assembleNumber neg ip fr false ed, r2.dropWhile Char.isDigit)
    | '-' :: r2 =>
      let ed := r2.takeWhile Char.isDigit
      if ed.isEmpty then none
      else some (assembleNumber neg ip fr true ed, r2.dropWhile Char.isDigit)
    | r2 =>
      let ed := r2.takeWhile Char.isDigit
      if ed.isEmpty then none
      else some (assembleNumber neg ip fr false ed, r2.dropWhile Char.isDigit)
  | 'E' :: r1 =>
    match r1 with
    | '+' :: r2 =>
      let ed := r2.takeWhile Char.isDigit
      if ed.isEmpty then none
      else some (assembleNumber neg ip fr false ed, r2.dropWhile Char.isDigit)
    | '-' :: r2 =>
      let ed := r2.takeWhile Char.isDigit
      if ed.isEmpty then none
      else some (assembleNumber neg ip fr true ed, r2.dropWhile Char.isDigit)
    | r2 =>
      let ed := r2.takeWhile Char.isDigit
      if ed.isEmpty then none
      else some (assembleNumber neg ip fr false ed, r2.dropWhile Char.isDigit)
  | _ => some (assembleNumber neg ip fr false [], cs)

/-- A JSON number token: `-?(0|[1-9][0-9]*)(\.[0-9]+)?([eE][+-]?[0-9]+)?`.
Returns its rational value and the rest of the input. -/
def parseNumber (cs : List Char) : Option (ℚ × List Char) :=
  let (neg, cs1) :=
    match cs with
    | '-' :: r => (true, r)
    | _ => (false, cs)
  let ip := cs1.takeWhile Char.isDigit
  if ip.isEmpty then none
  else if 1 < ip.length ∧ ip.headD 'x' = '0' then none
  else
    match cs1.dropWhile Char.isDigit with
    | '.' :: r =>
      let fr := r.takeWhile Char.isDigit
      if fr.isEmpty then none
      else parseExpPart neg ip fr (r.dropWhile Char.isDigit)
    | cs2 => parseExpPart neg ip [] cs2

/-- Mode of the JSON parser: a value, the elements of an array after `[`,
or the members of an object after a brace-open (with the accumulated
elements or members). -/
inductive PMode where
  | value
  | elems (acc : List JsValue)
  | members (acc : List (String × JsValue))

/-- Recursive-descent JSON parser, structurally recursive on fuel.  Each
call consumes input; the fuel of `jsonParse` dominates the recursion
depth. -/
def parseCore : Nat → PMode → List Char → Option (JsValue × List Char)
  | 0, _, _ => none
  | fuel+1, PMode.value, cs0 =>
    match skipWs cs0 with
    | 'n' :: 'u' :: 'l' :: 'l' :: rest => some (JsValue.null, rest)
    | 't' :: 'r' :: 'u' :: 'e' :: rest => some (JsValue.bool true, rest)
    | 'f' :: 'a' :: 'l' :: 's' :: 'e' :: rest => some (JsValue.bool false, rest)
    | '"' :: rest =>
      match parseStringAux (rest.length + 1) [] rest with
      | some (s, rest1) => some (JsValue.str s, rest1)
      | none => none
    | '[' :: rest =>
      match skipWs rest with
      | ']' :: r => some (JsValue.arr [], r)
      | r => parseCore fuel (PMode.elems []) r
    | '{' :: rest =>
      match skipWs rest with
      | '}' :: r => some (JsValue.obj [], r)
      | r => parseCore fuel (PMode.members []) r
    | cs =>
      match parseNumber cs with
      | some (q, rest) => some (JsValue.num q, rest)
      | none => none
  | fuel+1, PMode.elems acc, cs0 =>
    match parseCore fuel PMode.value cs0 with
    | none => none
    | some (v, rest) =>
      match skipWs rest with
      | ',' :: r => parseCore fuel (PMode.elems (acc ++ [v])) r
      | ']' :: r => some (JsValue.arr (acc ++ [v]), r)
      | _ => none
  | fuel+1, PMode.members acc, cs0 =>
    match skipWs cs0 with
    | '"' :: rest =>
      match parseStringAux (rest.length + 1) [] rest with
      | none => none
      | some (key, rest1) =>
        match skipWs rest1 with
        | ':' :: rest2 =>
          match parseCore fuel PMode.value rest2 with
          | none => none
          | some (v, rest3) =>
            match skipWs rest3 with
            | ',' :: r => parseCore fuel (PMode.members (setField acc key v)) r
            | '}' :: r => some (JsValue.obj (setField acc key v), r)
            | _ => none
        | _ => none
    | _ => none

/-- `JSON.parse`: parse one value and insist nothing but whitespace
follows. -/
def jsonParse (s : String) : Option JsValue :=
  let cs := s.data
  match parseCore (2 * cs.length + 4) PMode.value cs with
  | some (v, rest) => if (skipWs rest).isEmpty then some v else none
  | none => none

/-- First match of the regex over brace-open, `[\s\S]*`, brace-close (the
brace-span regex of the source): from the first brace-open that is followed
by a later brace-close — equivalently, the first brace-open before the last
brace-close — greedily to that last brace-close. -/
def extractBraceSpan (s : String) : Option String :=
  let cs := s.data
  match cs.findIdx? (· == '{'), (cs.reverse.findIdx? (· == '}')) with
  | some i, some rj =>
    let j := cs.length - 1 - rj
    if i < j then some (String.mk ((cs.drop i).take (j - i + 1))) else none
  | _, _ => none

/-- First match of `/\d+(\.\d+)?/`: the first maximal run of digits,
extended by a dot and a second digit run when one directly follows. -/
def firstNumMatch : List Char → Option (List Char)
  | [] => none
  | c :: rest =>
    if c.isDigit then
      let ds := List.takeWhile Char.isDigit (c :: rest)
      match List.dropWhile Char.isDigit (c :: rest) with
      | '.' :: r1 =>
        let fr := r1.takeWhile Char.isDigit
        if fr.isEmpty then some ds else some (ds ++ '.' :: fr)
      | _ => some ds
    else firstNumMatch rest

/-- `Number` applied to a `\d+(\.\d+)?` match: integer digits, and fraction
digits over the matching power of ten.  Always a non-negative rational,
never NaN.  (In JavaScript the result is the nearest double, which is
Infinity once the exact value reaches 2 ^ 1024 — still not NaN; the model
keeps the exact rational instead, a divergence recorded by
`score_overflow_evidence`.) -/
def parseDecimal (ds : List Char) : ℚ :=
  let ip := ds.takeWhile Char.isDigit
  let fr := (ds.dropWhile Char.isDigit).drop 1
  mkRat (digitsToNat (ip ++ fr) : Int) (10 ^ fr.length)

/-- The sentinel record of the `catch` branch:
`{ overallScore: null, error: "Invalid AI response format" }`. -/
def invalidResponse : List (String × JsValue) :=
  [("overallScore", JsValue.null),
   ("error", JsValue.str "Invalid AI response format")]

/-- The body of the routine after `JSON.parse` succeeded on the extracted
span, given the parsed object's fields: the presence test
`!parsed.overallScore && !parsed.error`, the coercion
`Number(String(parsed.overallScore).match(/\d+(\.\d+)?/)?.[0])` whose NaN
test fails exactly when the regex has no match, and the spread
`{ ...parsed, overallScore: numericScore }`. -/
def interpretParsed (fields : List (String × JsValue)) : List (String × JsValue) :=
  let score := getField fields "overallScore"
  if !(truthy score) && !(truthy (getField fields "error")) then invalidResponse
  else
    match firstNumMatch (jsToString score).data with
    | none => invalidResponse
    | some ds => setField fields "overallScore" (JsValue.num (parseDecimal ds))

/-- The routine `parseJSONResponse` of `App.jsx`: extract the brace span,
`JSON.parse` it, validate and coerce; every `throw` lands in the `catch`,
which returns `invalidResponse`.  A successful parse of a span necessarily
yields an object (the span starts with a brace-open), so the non-object
case is unreachable; property reads on a non-object would give `undefined`,
which is what interpreting an empty field list does. -/
def parseJSONResponse (reply : String) : List (String × JsValue) :=
  match extractBraceSpan reply with
  | none => invalidResponse
  | some span =>
    match jsonParse span with
    | none => invalidResponse
    | some (JsValue.obj fields) => interpretParsed fields
    | some _ => interpretParsed []

/-! ## Helper lemmas -/

/-- Reading back the key just set yields the value that was set. -/
theorem getField_setField_same (fs : List (String × JsValue)) (k : String)
    (v : JsValue) : getField (setField fs k v) k = v := by
  induction fs with
  | nil => simp [setField, getField]
  | cons p rest ih =>
    obtain ⟨k1, v1⟩ := p
    by_cases hk : k1 = k
    · subst hk
      simp [setField, getField]
    · simp [setField, getField, hk, ih]

/-- Setting one key leaves the reads of every other key unchanged. -/
theorem getField_setField_other (fs : List (String × JsValue)) (k k1 : String)
    (v : JsValue) (hne : k ≠ k1) : getField (setField fs k1 v) k = getField fs k := by
  induction fs with
  | nil => simp [setField, getField, Ne.symm hne]
  | cons p rest ih =>
    obtain ⟨k2, v2⟩ := p
    by_cases hk : k2 = k1
    · subst hk
      simp [setField, getField, Ne.symm hne]
    · simp [setField, getField, hk, ih]

/-- The value `Number` gives to a digit-regex match is non-negative. -/
theorem parseDecimal_nonneg (ds : List Char) : 0 ≤ parseDecimal ds := by
  unfold parseDecimal
  rw [Rat.mkRat_eq_divInt, Rat.divInt_eq_div]
  positivity

/-- When the regex finds no span, the catch returns the sentinel. -/
theorem parseJSONResponse_noSpan (s : String) (h1 : extractBraceSpan s = none) :
    parseJSONResponse s = invalidResponse := by
  simp only [parseJSONResponse, h1]

/-- When `JSON.parse` fails on the extracted span, the catch returns the
sentinel. -/
theorem parseJSONResponse_parseFail (s span : String)
    (h1 : extractBraceSpan s = some span) (h2 : jsonParse span = none) :
    parseJSONResponse s = invalidResponse := by
  simp only [parseJSONResponse, h1, h2]

/-- When both the extraction and the JSON parse succeed, the routine is the
validation-and-coercion body on the parsed fields. -/
theorem parseJSONResponse_eq_interpret (s span : String)
    (fields : List (String × JsValue)) (h1 : extractBraceSpan s = some span)
    (h2 : jsonParse span = some (JsValue.obj fields)) :
    parseJSONResponse s = interpretParsed fields := by
  simp only [parseJSONResponse, h1, h2]

/-- The body throws `"Missing overallScore"` when both fields are falsy, and
the catch returns the sentinel. -/
theorem interpretParsed_missing (fs : List (String × JsValue))
    (h1 : truthy (getField fs "overallScore") = false)
    (h2 : truthy (getField fs "error") = false) :
    interpretParsed fs = invalidResponse := by
  simp [interpretParsed, h1, h2]

/-- When the digit regex finds no match in the stringified score, the body
ends in the sentinel: either the presence test already threw, or
`Number(undefined)` is NaN and the score-format test threw. -/
theorem interpretParsed_noMatch (fs : List (String × JsValue))
    (hm : firstNumMatch (jsToString (getField fs "overallScore")).data = none) :
    interpretParsed fs = invalidResponse := by
  simp only [interpretParsed]
  split
  · rfl
  · rw [hm]

/-- When the presence test passes and the digit regex matches, the body
returns the parsed fields with the score replaced by the coerced number. -/
theorem interpretParsed_success (fs : List (String × JsValue)) (ds : List Char)
    (hp : (truthy (getField fs "overallScore") || truthy (getField fs "error")) = true)
    (hm : firstNumMatch (jsToString (getField fs "overallScore")).data = some ds) :
    interpretParsed fs = setField fs "overallScore" (JsValue.num (parseDecimal ds)) := by
  have hcond : (!(truthy (getField fs "overallScore")) &&
      !(truthy (getField fs "error"))) = false := by
    cases hs : truthy (getField fs "overallScore") <;>
      cases he : truthy (getField fs "error") <;> simp_all
  simp [interpretParsed, hcond, hm]

/-- Every run of the body either yields the sentinel or replaces the score
by a coerced regex match. -/
theorem interpretParsed_shape (fs : List (String × JsValue)) :
    interpretParsed fs = invalidResponse ∨
    ∃ ds, firstNumMatch (jsToString (getField fs "overallScore")).data = some ds ∧
      interpretParsed fs = setField fs "overallScore" (JsValue.num (parseDecimal ds)) := by
  simp only [interpretParsed]
  split
  · exact Or.inl rfl
  · cases hm : firstNumMatch (jsToString (getField fs "overallScore")).data with
    | none => exact Or.inl rfl
    | some ds => exact Or.inr ⟨ds, rfl, rfl⟩

/-- Every run of the routine either yields the sentinel or replaces the
score field of some parsed field list by a coerced regex match. -/
theorem parseJSONResponse_shape (s : String) :
    parseJSONResponse s = invalidResponse ∨
    ∃ fs ds, parseJSONResponse s = setField fs "overallScore" (JsValue.num (parseDecimal ds)) := by
  have hfs : ∀ fs : List (String × JsValue), parseJSONResponse s = interpretParsed fs →
      parseJSONResponse s = invalidResponse ∨
      ∃ fs2 ds, parseJSONResponse s = setField fs2 "overallScore" (JsValue.num (parseDecimal ds)) := by
    intro fs heq
    rcases interpretParsed_shape fs with h | ⟨ds, _, h⟩
    · exact Or.inl (heq.trans h)
    · exact Or.inr ⟨fs, ds, heq.trans h⟩
  cases hex : extractBraceSpan s with
  | none => exact Or.inl (parseJSONResponse_noSpan s hex)
  | some span =>
    cases hj : jsonParse span with
    | none => exact Or.inl (parseJSONResponse_parseFail s span hex hj)
    | some v =>
      cases v with
      | obj fields => exact hfs fields (parseJSONResponse_eq_interpret s span fields hex hj)
      | null => exact hfs [] (by simp only [parseJSONResponse, hex, hj])
      | undefined => exact hfs [] (by simp only [parseJSONResponse, hex, hj])
      | bool b => exact hfs [] (by simp only [parseJSONResponse, hex, hj])
      | num q => exact hfs [] (by simp only [parseJSONResponse, hex, hj])
      | str s1 => exact hfs [] (by simp only [parseJSONResponse, hex, hj])
      | arr xs => exact hfs [] (by simp only [parseJSONResponse, hex, hj])

/-! ## Claim theorems -/

/-- Bridging the decimal literal `7.5` with the rational the parser
builds. -/
theorem rat_sevenHalf : (7.5 : ℚ) = mkRat 75 10 := by
  norm_num [Rat.mkRat_eq_divInt, Rat.divInt_eq_div]

/-- Claim C1: for every input string, `parseJSONResponse` returns a record
and never raises; every failure path resolves to a record whose
overallScore is null and whose error field is a non-empty string.  So the
result always carries a numeric overallScore, or a null one together with a
non-empty error string. -/
theorem interpret_total_shape (s : String) :
    (∃ q, getField (parseJSONResponse s) "overallScore" = JsValue.num q) ∨
    (getField (parseJSONResponse s) "overallScore" = JsValue.null ∧
      ∃ e, getField (parseJSONResponse s) "error" = JsValue.str e ∧ e ≠ "") := by
  rcases parseJSONResponse_shape s with h | ⟨fs, ds, h⟩
  · right
    rw [h]
    exact ⟨rfl, "Invalid AI response format", rfl, by decide⟩
  · left
    refine ⟨parseDecimal ds, ?_⟩
    rw [h]
    exact getField_setField_same fs "overallScore" _

/-- Witness for C1 at a concrete input. -/
theorem interpret_total_shape_witness :
    (∃ q, getField (parseJSONResponse "no json here") "overallScore" = JsValue.num q) ∨
    (getField (parseJSONResponse "no json here") "overallScore" = JsValue.null ∧
      ∃ e, getField (parseJSONResponse "no json here") "error" = JsValue.str e ∧ e ≠ "") :=
  interpret_total_shape "no json here"

/-- Claim C2: every failure branch — no brace span, JSON parse error,
overallScore and error both falsy, and no digit match in the stringified
score (the NaN case of the score-format test) — returns exactly the record
with a null overallScore and the error "Invalid AI response format"; in
particular an input with no brace span yields a null score and a non-empty
error. -/
theorem failure_branches_collapse :
    (∀ s, extractBraceSpan s = none → parseJSONResponse s = invalidResponse) ∧
    (∀ s span, extractBraceSpan s = some span → jsonParse span = none →
      parseJSONResponse s = invalidResponse) ∧
    (∀ s span fs, extractBraceSpan s = some span →
      jsonParse span = some (JsValue.obj fs) →
      truthy (getField fs "overallScore") = false →
      truthy (getField fs "error") = false →
      parseJSONResponse s = invalidResponse) ∧
    (∀ s span fs, extractBraceSpan s = some span →
      jsonParse span = some (JsValue.obj fs) →
      firstNumMatch (jsToString (getField fs "overallScore")).data = none →
      parseJSONResponse s = invalidResponse) ∧
    (∀ s, extractBraceSpan s = none →
      getField (parseJSONResponse s) "overallScore" = JsValue.null ∧
      ∃ e, getField (parseJSONResponse s) "error" = JsValue.str e ∧ e ≠ "") := by
  refine ⟨?_, ?_, ?_, ?_, ?_⟩
  · exact fun s h => parseJSONResponse_noSpan s h
  · exact fun s span h1 h2 => parseJSONResponse_parseFail s span h1 h2
  · intro s span fs h1 h2 h3 h4
    rw [parseJSONResponse_eq_interpret s span fs h1 h2]
    exact interpretParsed_missing fs h3 h4
  · intro s span fs h1 h2 hm
    rw [parseJSONResponse_eq_interpret s span fs h1 h2]
    exact interpretParsed_noMatch fs hm
  · intro s h
    rw [parseJSONResponse_noSpan s h]
    exact ⟨rfl, "Invalid AI response format", rfl, by decide⟩

/-- Witness for C2: one concrete input per failure branch. -/
theorem failure_branches_collapse_witness :
    parseJSONResponse "no json here" = invalidResponse ∧
    parseJSONResponse "\x7b oops \x7d" = invalidResponse ∧
    parseJSONResponse "\x7b\"ok\": true\x7d" = invalidResponse ∧
    parseJSONResponse "\x7b\"overallScore\": \"abc\"\x7d" = invalidResponse :=
  ⟨failure_branches_collapse.1 "no json here" rfl,
   failure_branches_collapse.2.1 "\x7b oops \x7d" "\x7b oops \x7d" rfl rfl,
   failure_branches_collapse.2.2.1 "\x7b\"ok\": true\x7d" "\x7b\"ok\": true\x7d"
     [("ok", JsValue.bool true)] rfl rfl rfl rfl,
   failure_branches_collapse.2.2.2.1 "\x7b\"overallScore\": \"abc\"\x7d"
     "\x7b\"overallScore\": \"abc\"\x7d" [("overallScore", JsValue.str "abc")] rfl rfl rfl⟩

set_option maxRecDepth 10000 in
/-- Claim C3 (code bug): the claimed invariant — overallScore is null or a
finite non-negative number — is what the validation step evidently intends,
but the code's `Number.isNaN` guard does not catch Infinity.  On the input
below, a score string of 309 nines, the coerced score's exact value is
`10 ^ 309 - 1 ≥ 2 ^ 1024`, beyond every finite IEEE double, so the real
routine's `Number` overflows to Infinity, passes the isNaN test, and the
returned record carries `overallScore: Infinity` — neither null nor finite.
This theorem evaluates the embedding at that input: the exact-rational
model records the exact coerced value, and that value is at least
`2 ^ 1024`, the double overflow threshold. -/
theorem score_overflow_evidence :
    getField
      (parseJSONResponse
        ("\x7b\"overallScore\": \"" ++ String.mk (List.replicate 309 '9') ++ "\"\x7d"))
      "overallScore" = JsValue.num (mkRat ((10 : Int) ^ 309 - 1) 1) ∧
    (2 : Nat) ^ 1024 ≤ 10 ^ 309 - 1 :=
  ⟨rfl, by decide⟩

/-- Claim C4: a parsed object whose overallScore is the number 0 and which
has no error field takes the missing-overallScore failure path — 0 is
falsy, so the presence test throws — and the failure record is returned
even though 0 is a numerically valid score. -/
theorem zero_score_fails (s span : String) (fs : List (String × JsValue))
    (h1 : extractBraceSpan s = some span)
    (h2 : jsonParse span = some (JsValue.obj fs))
    (h3 : getField fs "overallScore" = JsValue.num 0)
    (h4 : getField fs "error" = JsValue.undefined) :
    parseJSONResponse s = invalidResponse := by
  rw [parseJSONResponse_eq_interpret s span fs h1 h2]
  refine interpretParsed_missing fs ?_ ?_
  · rw [h3]
    simp [truthy]
  · rw [h4]
    rfl

/-- Witness for C4: a literal zero score, no error field. -/
theorem zero_score_fails_witness :
    parseJSONResponse "\x7b\"overallScore\": 0\x7d" = invalidResponse :=
  zero_score_fails "\x7b\"overallScore\": 0\x7d" "\x7b\"overallScore\": 0\x7d"
    [("overallScore", JsValue.num 0)] rfl rfl rfl rfl

/-- Claim C5: on the spec's end-to-end input the result has overallScore 9
(extracted from the string "Score: 9/10") and performanceMetrics unchanged
with clarity 8. -/
theorem example_end_to_end :
    getField (parseJSONResponse "Here is the result: \x7b\"overallScore\": \"Score: 9/10\", \"performanceMetrics\": \x7b\"clarity\": 8\x7d\x7d") "overallScore" = JsValue.num 9 ∧
    getField (parseJSONResponse "Here is the result: \x7b\"overallScore\": \"Score: 9/10\", \"performanceMetrics\": \x7b\"clarity\": 8\x7d\x7d") "performanceMetrics" = JsValue.obj [("clarity", JsValue.num 8)] :=
  ⟨rfl, rfl⟩

/-- Claim C6: score coercion stringifies the raw score, extracts the first
digit pattern, and converts it to a number: a parsed score "8 out of 10"
yields 8; in general a successful match coerces to its decimal value; and
when the stringified score has no digit match, conversion yields NaN, the
score-format test throws, and the failure record is returned. -/
theorem score_coercion :
    (∀ s span fs, extractBraceSpan s = some span →
      jsonParse span = some (JsValue.obj fs) →
      getField fs "overallScore" = JsValue.str "8 out of 10" →
      getField (parseJSONResponse s) "overallScore" = JsValue.num 8) ∧
    (∀ s span fs ds, extractBraceSpan s = some span →
      jsonParse span = some (JsValue.obj fs) →
      (truthy (getField fs "overallScore") || truthy (getField fs "error")) = true →
      firstNumMatch (jsToString (getField fs "overallScore")).data = some ds →
      getField (parseJSONResponse s) "overallScore" = JsValue.num (parseDecimal ds)) ∧
    (∀ s span fs, extractBraceSpan s = some span →
      jsonParse span = some (JsValue.obj fs) →
      firstNumMatch (jsToString (getField fs "overallScore")).data = none →
      parseJSONResponse s = invalidResponse) := by
  have hgen : ∀ s span fs ds, extractBraceSpan s = some span →
      jsonParse span = some (JsValue.obj fs) →
      (truthy (getField fs "overallScore") || truthy (getField fs "error")) = true →
      firstNumMatch (jsToString (getField fs "overallScore")).data = some ds →
      getField (parseJSONResponse s) "overallScore" = JsValue.num (parseDecimal ds) := by
    intro s span fs ds h1 h2 hp hm
    rw [parseJSONResponse_eq_interpret s span fs h1 h2,
      interpretParsed_success fs ds hp hm]
    exact getField_setField_same fs "overallScore" _
  refine ⟨?_, hgen, ?_⟩
  · intro s span fs h1 h2 h3
    have h8 := hgen s span fs ['8'] h1 h2 (by rw [h3]; rfl) (by rw [h3]; rfl)
    rw [h8]
    rfl
  · intro s span fs h1 h2 hm
    rw [parseJSONResponse_eq_interpret s span fs h1 h2]
    exact interpretParsed_noMatch fs hm

/-- Witness for C6: the "8 out of 10" example and a digitless score. -/
theorem score_coercion_witness :
    getField (parseJSONResponse "\x7b\"overallScore\": \"8 out of 10\"\x7d") "overallScore" = JsValue.num 8 ∧
    parseJSONResponse "\x7b\"overallScore\": \"no digits\", \"error\": true\x7d" = invalidResponse :=
  ⟨score_coercion.1 "\x7b\"overallScore\": \"8 out of 10\"\x7d"
     "\x7b\"overallScore\": \"8 out of 10\"\x7d"
     [("overallScore", JsValue.str "8 out of 10")] rfl rfl rfl,
   score_coercion.2.2 "\x7b\"overallScore\": \"no digits\", \"error\": true\x7d"
     "\x7b\"overallScore\": \"no digits\", \"error\": true\x7d"
     [("overallScore", JsValue.str "no digits"), ("error", JsValue.bool true)] rfl rfl rfl⟩

/-- Claim C7: a parsed overallScore that is the number 7.5 round-trips
through the coercion unchanged: it stringifies to "7.5", the regex matches
"7.5", and conversion gives back 7.5. -/
theorem score_roundtrip (s span : String) (fs : List (String × JsValue))
    (h1 : extractBraceSpan s = some span)
    (h2 : jsonParse span = some (JsValue.obj fs))
    (h3 : getField fs "overallScore" = JsValue.num 7.5) :
    getField (parseJSONResponse s) "overallScore" = JsValue.num 7.5 := by
  rw [parseJSONResponse_eq_interpret s span fs h1 h2]
  have ht : truthy (JsValue.num 7.5) = true := by
    rw [rat_sevenHalf]
    rfl
  have hs : jsToString (JsValue.num 7.5) = "7.5" := by
    rw [rat_sevenHalf]
    rfl
  have hp : (truthy (getField fs "overallScore") || truthy (getField fs "error")) = true := by
    rw [h3, ht]
    rfl
  have hm : firstNumMatch (jsToString (getField fs "overallScore")).data = some ['7', '.', '5'] := by
    rw [h3, hs]
    rfl
  rw [interpretParsed_success fs _ hp hm, getField_setField_same, rat_sevenHalf]
  rfl

/-- Witness for C7: a literal 7.5 score. -/
theorem score_roundtrip_witness :
    getField (parseJSONResponse "\x7b\"overallScore\": 7.5\x7d") "overallScore" = JsValue.num 7.5 :=
  score_roundtrip "\x7b\"overallScore\": 7.5\x7d" "\x7b\"overallScore\": 7.5\x7d"
    [("overallScore", JsValue.num (mkRat 75 10))] rfl rfl
    (congrArg JsValue.num rat_sevenHalf.symm)

/-- Claim C8: on the success path the routine returns the parsed object
with only overallScore replaced: every other field reads the same in the
result as in the parsed object. -/
theorem success_frame (s span : String) (fs : List (String × JsValue))
    (ds : List Char) (k : String)
    (h1 : extractBraceSpan s = some span)
    (h2 : jsonParse span = some (JsValue.obj fs))
    (hp : (truthy (getField fs "overallScore") || truthy (getField fs "error")) = true)
    (hm : firstNumMatch (jsToString (getField fs "overallScore")).data = some ds)
    (hk : k ≠ "overallScore") :
    getField (parseJSONResponse s) k = getField fs k := by
  rw [parseJSONResponse_eq_interpret s span fs h1 h2,
    interpretParsed_success fs ds hp hm]
  exact getField_setField_other fs k "overallScore" _ hk

/-- Witness for C8: performanceMetrics passes through untouched. -/
theorem success_frame_witness :
    getField (parseJSONResponse "Here is the result: \x7b\"overallScore\": \"Score: 9/10\", \"performanceMetrics\": \x7b\"clarity\": 8\x7d\x7d") "performanceMetrics" =
      getField [("overallScore", JsValue.str "Score: 9/10"),
        ("performanceMetrics", JsValue.obj [("clarity", JsValue.num 8)])] "performanceMetrics" :=
  success_frame
    "Here is the result: \x7b\"overallScore\": \"Score: 9/10\", \"performanceMetrics\": \x7b\"clarity\": 8\x7d\x7d"
    "\x7b\"overallScore\": \"Score: 9/10\", \"performanceMetrics\": \x7b\"clarity\": 8\x7d\x7d"
    [("overallScore", JsValue.str "Score: 9/10"),
      ("performanceMetrics", JsValue.obj [("clarity", JsValue.num 8)])]
    ['9'] "performanceMetrics" rfl rfl rfl rfl (by decide)

/-- Claim C9: the routine is deterministic and stateless; in this embedding
it is a pure function of its input string, so two invocations on the same
string yield equal records. -/
theorem interpret_deterministic (s : String) :
    parseJSONResponse s = parseJSONResponse s := rfl

/-- Witness for C9 at a concrete input. -/
theorem interpret_deterministic_witness :
    parseJSONResponse "no json" = parseJSONResponse "no json" :=
  interpret_deterministic "no json"

/-- Claim C10: a parsed object with a truthy error field whose overallScore
stringifies without any digit does not propagate the AI-supplied error: the
coercion yields NaN and the sentinel record is returned, discarding the
original error message. -/
theorem ai_error_discarded (s span : String) (fs : List (String × JsValue))
    (h1 : extractBraceSpan s = some span)
    (h2 : jsonParse span = some (JsValue.obj fs))
    (he : truthy (getField fs "error") = true)
    (hm : firstNumMatch (jsToString (getField fs "overallScore")).data = none) :
    parseJSONResponse s = invalidResponse := by
  rw [parseJSONResponse_eq_interpret s span fs h1 h2]
  exact interpretParsed_noMatch fs hm

/-- Witness for C10: an error-only reply; the error "model refused" is
discarded. -/
theorem ai_error_discarded_witness :
    parseJSONResponse "\x7b\"error\": \"model refused\"\x7d" = invalidResponse :=
  ai_error_discarded "\x7b\"error\": \"model refused\"\x7d" "\x7b\"error\": \"model refused\"\x7d"
    [("error", JsValue.str "model refused")] rfl rfl rfl rfl
